import Mathlib

/-!
Verification of the MPTraj dataset pipeline (`src/mattertune/data/mptraj.py`).

The module builds an in-memory, filtered list of atomic structures from a
remote split of raw records.  We embed the data model (raw records, ASE-style
`Atoms` with single-point labels, the dataset configuration), the conversion
function `_load_atoms_from_entry`, the predicate `_filter_atoms`, the build
loop of `MPTrajDataset.__init__`, and Python's list-indexing semantics used by
`MPTrajDataset.__getitem__`.  Real-valued fields are embedded as rationals.
-/

namespace MatterTune

/-- `ase.data.chemical_symbols`: the element symbol for each atomic number
(index 0 is the placeholder symbol `X`). -/
def chemical_symbols : List String :=
  ["X", "H", "He", "Li", "Be", "B", "C", "N", "O", "F", "Ne",
   "Na", "Mg", "Al", "Si", "P", "S", "Cl", "Ar", "K", "Ca",
   "Sc", "Ti", "V", "Cr", "Mn", "Fe", "Co", "Ni", "Cu", "Zn",
   "Ga", "Ge", "As", "Se", "Br", "Kr", "Rb", "Sr", "Y", "Zr",
   "Nb", "Mo", "Tc", "Ru", "Rh", "Pd", "Ag", "Cd", "In", "Sn",
   "Sb", "Te", "I", "Xe", "Cs", "Ba", "La", "Ce", "Pr", "Nd",
   "Pm", "Sm", "Eu", "Gd", "Tb", "Dy", "Ho", "Er", "Tm", "Yb",
   "Lu", "Hf", "Ta", "W", "Re", "Os", "Ir", "Pt", "Au", "Hg",
   "Tl", "Pb", "Bi", "Po", "At", "Rn", "Fr", "Ra", "Ac", "Th",
   "Pa", "U", "Np", "Pu", "Am", "Cm", "Bk", "Cf", "Es", "Fm",
   "Md", "No", "Lr", "Rf", "Db", "Sg", "Bh", "Hs", "Mt", "Ds",
   "Rg", "Cn", "Nh", "Fl", "Mc", "Lv", "Ts", "Og"]

/-- Symbol lookup by atomic number.  Raw records only carry atomic numbers of
real elements (1..118); out-of-table numbers never occur for this source, so
the default branch is unreachable in practice. -/
def chemicalSymbol (n : ℕ) : String := chemical_symbols.getD n "X"

/-- The label set attached to a structure by `SinglePointCalculator`:
one energy, a forces matrix (stored row per atom as provided, unchecked), and
the 6-component Voigt stress vector. -/
structure SinglePointResults where
  energy : ℚ
  forces : List (List ℚ)
  stress : List ℚ
  deriving DecidableEq, Repr

/-- An ASE `Atoms` object as used here: per-atom positions and atomic numbers,
a 3x3 periodic cell, the periodic-boundary flag, and the optionally attached
single-point calculator results (`atoms.calc`; `calc` is a Lean keyword, hence
the field name `calcResults`). -/
structure Atoms where
  positions : List (List ℚ)
  numbers : List ℕ
  cell : List (List ℚ)
  pbc : Bool
  calcResults : Option SinglePointResults
  deriving DecidableEq, Repr

/-- `len(atoms)`: the number of atoms, i.e. the length of the per-atom
`numbers` array. -/
def natoms (atoms : Atoms) : ℕ := atoms.numbers.length

/-- `atoms.get_chemical_symbols()`: the per-atom element symbols. -/
def get_chemical_symbols (atoms : Atoms) : List String :=
  atoms.numbers.map chemicalSymbol

/-- `MPTrajDatasetConfig`: the dataset configuration.  `type` is the constant
discriminator `"mptraj"` and carries no information, so it is omitted.
Defaults follow the class body: `split="train"`, `min_num_atoms=5`,
`max_num_atoms=None`, `elements=None`. -/
structure MPTrajDatasetConfig where
  split : String := "train"
  min_num_atoms : Option ℤ := some 5
  max_num_atoms : Option ℤ := none
  elements : Option (List String) := none
  deriving DecidableEq, Repr

/-- Construction of an `MPTrajDatasetConfig` through the config framework
(pydantic-style).  The declared field types are validated: `split` must be one
of the three literals; `min_num_atoms`/`max_num_atoms` are plain optional ints
and `elements` a plain optional string list.  The class body declares no
cross-field validator, so no other combination of field values is rejected. -/
def mkMPTrajDatasetConfig (split : String) (mn mx : Option ℤ)
    (els : Option (List String)) : Except String MPTrajDatasetConfig :=
  if split = "train" ∨ split = "val" ∨ split = "test" then
    .ok { split := split, min_num_atoms := mn, max_num_atoms := mx,
          elements := els }
  else
    .error "validation error for MPTrajDatasetConfig: split"

/-- A raw record of the upstream split, with the fields the module consumes. -/
structure RawEntry where
  positions : List (List ℚ)
  numbers : List ℕ
  cell : List (List ℚ)
  corrected_total_energy : ℚ
  forces : List (List ℚ)
  stress : List (List ℚ)
  deriving DecidableEq, Repr

/-- Entry `(i, j)` of a 3x3 matrix given as a row list.  Raw stress tensors
are always full 3x3 matrices, so the default value is never consulted for the
indices used below. -/
def mat3 (s : List (List ℚ)) (i j : ℕ) : ℚ := (s.getD i []).getD j 0

/-- `ase.stress.full_3x3_to_voigt_6_stress`: flatten a full 3x3 stress tensor
to the 6-vector (xx, yy, zz, yz, xz, xy), averaging each symmetric
off-diagonal pair. -/
def full_3x3_to_voigt_6_stress (s : List (List ℚ)) : List ℚ :=
  [mat3 s 0 0, mat3 s 1 1, mat3 s 2 2,
   (mat3 s 1 2 + mat3 s 2 1) / 2,
   (mat3 s 0 2 + mat3 s 2 0) / 2,
   (mat3 s 0 1 + mat3 s 1 0) / 2]

/-- `MPTrajDataset._load_atoms_from_entry`: build an `Atoms` from the raw
fields (`pbc=True` unconditionally) and attach the single-point labels.
The only validation on this path is ASE's own array-length check inside
`Atoms.__init__` (`new_array` raises when `positions` and `numbers` disagree
in length); neither the module nor `SinglePointCalculator` checks the shape of
`forces` or any other label against the atom count. -/
def _load_atoms_from_entry (entry : RawEntry) : Except String Atoms :=
  if entry.positions.length ≠ entry.numbers.length then
    .error "ValueError: array has wrong length"
  else
    .ok { positions := entry.positions
          numbers := entry.numbers
          cell := entry.cell
          pbc := true
          calcResults := some
            { energy := entry.corrected_total_energy
              forces := entry.forces
              stress := full_3x3_to_voigt_6_stress entry.stress } }

/-- `MPTrajDataset._filter_atoms`: the inclusion predicate.  Mirrors the three
early-return checks: drop when `min_num_atoms` is set and the atom count is
below it; drop when `max_num_atoms` is set and the atom count is above it;
drop when `elements` is set and the structure's set of chemical symbols is not
a subset of the configured list (`set(self.config.elements) >= elements`,
i.e. symbol-set inclusion, which `List.Subset` captures). -/
def _filter_atoms (config : MPTrajDatasetConfig) (atoms : Atoms) : Bool :=
  if config.min_num_atoms.any (fun m => decide ((natoms atoms : ℤ) < m)) then
    false
  else if config.max_num_atoms.any (fun M => decide ((natoms atoms : ℤ) > M)) then
    false
  else if config.elements.any
      (fun allowed => decide (¬ get_chemical_symbols atoms ⊆ allowed)) then
    false
  else
    true

/-- The loading loop of `MPTrajDataset.__init__`: for each raw entry of the
fetched split, in upstream iteration order, convert it and append the result
to `atoms_list` when it passes the filter.  A conversion error propagates out
of the loop unhandled, so no list is produced at all in that case. -/
def buildAtomsList (config : MPTrajDatasetConfig) :
    List RawEntry → Except String (List Atoms)
  | [] => .ok []
  | e :: rest =>
    match _load_atoms_from_entry e with
    | .error msg => .error msg
    | .ok atoms =>
      match buildAtomsList config rest with
      | .error msg => .error msg
      | .ok tail =>
        .ok (if _filter_atoms config atoms then atoms :: tail else tail)

/-- `MPTrajDataset`: the finalized dataset, holding its config and the
materialized `atoms_list`. -/
structure MPTrajDataset where
  config : MPTrajDatasetConfig
  atoms_list : List Atoms
  deriving DecidableEq, Repr

/-- Python list indexing semantics (`lst[i]` for `i : int`): non-negative
indices below the length access directly, negative indices from `-len` up
wrap around to `len + i`, and anything else raises `IndexError` (modelled as
`none`). -/
def pyListGet {α : Type} (l : List α) (i : ℤ) : Option α :=
  if 0 ≤ i ∧ i < (l.length : ℤ) then l[i.toNat]?
  else if -(l.length : ℤ) ≤ i ∧ i < 0 then l[(i + l.length).toNat]?
  else none

/-- `MPTrajDataset.__getitem__`: `self.atoms_list[idx]` with Python list
indexing. -/
def MPTrajDataset.getitem (ds : MPTrajDataset) (idx : ℤ) : Option Atoms :=
  pyListGet ds.atoms_list idx

/-- `MPTrajDataset.__len__`: `len(self.atoms_list)`. -/
def MPTrajDataset.len (ds : MPTrajDataset) : ℕ := ds.atoms_list.length

/-- Whether a raw entry both converts successfully and passes the filter; a
successfully built dataset contains exactly these entries' structures. -/
def entrySurvives (config : MPTrajDatasetConfig) (e : RawEntry) : Bool :=
  match _load_atoms_from_entry e with
  | .ok atoms => _filter_atoms config atoms
  | .error _ => false

/-! Concrete fixtures used by the witnesses and counterexamples below. -/

/-- The 3x3 identity cell. -/
def eye3 : List (List ℚ) := [[1, 0, 0], [0, 1, 0], [0, 0, 1]]

/-- A zero 3x3 stress tensor. -/
def zeros3 : List (List ℚ) := [[0, 0, 0], [0, 0, 0], [0, 0, 0]]

/-- A well-formed raw entry with `k` hydrogen atoms at the origin. -/
def mkEntry (k : ℕ) : RawEntry :=
  { positions := List.replicate k [0, 0, 0], numbers := List.replicate k 1,
    cell := eye3, corrected_total_energy := 0,
    forces := List.replicate k [0, 0, 0], stress := zeros3 }

/-- The conversion result of `mkEntry k`. -/
def mkAtoms (k : ℕ) : Atoms :=
  { positions := List.replicate k [0, 0, 0], numbers := List.replicate k 1,
    cell := eye3, pbc := true,
    calcResults := some { energy := 0, forces := List.replicate k [0, 0, 0],
                          stress := full_3x3_to_voigt_6_stress zeros3 } }

/-- The default configuration (`split="train"`, `min_num_atoms=5`, other
predicates unset). -/
def cfgDefault : MPTrajDatasetConfig := {}

/-- A configuration with no filter predicate set. -/
def cfgNoFilter : MPTrajDatasetConfig :=
  { split := "train", min_num_atoms := none, max_num_atoms := none,
    elements := none }

/-- A configuration restricting elements to lithium and sodium, with no
atom-count bounds. -/
def cfgLiNa : MPTrajDatasetConfig :=
  { split := "train", min_num_atoms := none, max_num_atoms := none,
    elements := some ["Li", "Na"] }

/-- A configuration restricting elements to lithium, sodium and oxygen, with
no atom-count bounds. -/
def cfgLiNaO : MPTrajDatasetConfig :=
  { split := "train", min_num_atoms := none, max_num_atoms := none,
    elements := some ["Li", "Na", "O"] }

/-- A structure with a single lithium atom and no attached labels. -/
def atomsLi : Atoms :=
  { positions := [[0, 0, 0]], numbers := [3], cell := eye3, pbc := true,
    calcResults := none }

/-- A one-element dataset over the default config. -/
def dsEx : MPTrajDataset := { config := cfgDefault, atoms_list := [mkAtoms 5] }

/-- A raw entry with two atoms but a 3x3 `forces` array: its forces shape
mismatches the atom count. -/
def badEntry : RawEntry :=
  { positions := [[0, 0, 0], [0, 0, 0]], numbers := [1, 1], cell := eye3,
    corrected_total_energy := 0,
    forces := [[0, 0, 0], [0, 0, 0], [0, 0, 0]], stress := zeros3 }

/-- The conversion result of `badEntry`: the mismatched forces attached
unchanged. -/
def badAtoms : Atoms :=
  { positions := [[0, 0, 0], [0, 0, 0]], numbers := [1, 1], cell := eye3,
    pbc := true,
    calcResults := some { energy := 0,
                          forces := [[0, 0, 0], [0, 0, 0], [0, 0, 0]],
                          stress := full_3x3_to_voigt_6_stress zeros3 } }

end MatterTune

namespace MatterTune

/-- C6: the stress conversion flattens the raw symmetric 3x3 stress tensor to
the 6-vector in fixed Voigt order (xx, yy, zz, yz, xz, xy): for any symmetric
3x3 tensor the result lists the three diagonal entries followed by the yz, xz
and xy entries, and on the concrete tensor with diagonal (1, 2, 3) and
symmetric off-diagonal entries 4 (yz), 5 (xz), 6 (xy) it yields
[1, 2, 3, 4, 5, 6]. -/
theorem voigt6_of_symmetric_and_concrete :
    (∀ s : List (List ℚ),
      mat3 s 1 2 = mat3 s 2 1 → mat3 s 0 2 = mat3 s 2 0 →
      mat3 s 0 1 = mat3 s 1 0 →
      full_3x3_to_voigt_6_stress s =
        [mat3 s 0 0, mat3 s 1 1, mat3 s 2 2,
         mat3 s 1 2, mat3 s 0 2, mat3 s 0 1]) ∧
    full_3x3_to_voigt_6_stress [[1, 6, 5], [6, 2, 4], [5, 4, 3]] =
      [1, 2, 3, 4, 5, 6] := by
  constructor
  · intro s h12 h02 h01
    simp only [full_3x3_to_voigt_6_stress, h12, h02, h01]
    norm_num
  · simp only [full_3x3_to_voigt_6_stress, mat3]
    norm_num

/-- Characterization of `_filter_atoms`: a structure passes the filter iff it
satisfies every present predicate (absent predicates are vacuous). -/
theorem filter_atoms_eq_true_iff (c : MPTrajDatasetConfig) (a : Atoms) :
    _filter_atoms c a = true ↔
      (∀ m ∈ c.min_num_atoms, m ≤ (natoms a : ℤ)) ∧
      (∀ M ∈ c.max_num_atoms, (natoms a : ℤ) ≤ M) ∧
      (∀ E ∈ c.elements, get_chemical_symbols a ⊆ E) := by
  rcases hmn : c.min_num_atoms with _ | m <;>
    rcases hmx : c.max_num_atoms with _ | M <;>
      rcases hel : c.elements with _ | E <;>
        simp [_filter_atoms, hmn, hmx, hel, Option.any, not_lt, not_le]

/-- Every structure in a successfully built `atoms_list` passes the filter. -/
theorem buildAtomsList_mem_filter (c : MPTrajDatasetConfig) :
    ∀ (es : List RawEntry) (ds : List Atoms),
      buildAtomsList c es = .ok ds → ∀ a ∈ ds, _filter_atoms c a = true := by
  intro es
  induction es with
  | nil =>
    intro ds h a ha
    simp only [buildAtomsList, Except.ok.injEq] at h
    subst h
    simp at ha
  | cons e rest ih =>
    intro ds h a ha
    simp only [buildAtomsList] at h
    cases hl : _load_atoms_from_entry e with
    | error msg => rw [hl] at h; exact absurd h (by simp)
    | ok atoms =>
      rw [hl] at h
      cases hr : buildAtomsList c rest with
      | error msg => rw [hr] at h; exact absurd h (by simp)
      | ok tail =>
        rw [hr] at h
        simp only [Except.ok.injEq] at h
        subst h
        by_cases hf : _filter_atoms c atoms = true
        · rw [if_pos hf] at ha
          rcases List.mem_cons.mp ha with rfl | hmem
          · exact hf
          · exact ih tail hr a hmem
        · rw [if_neg hf] at ha
          exact ih tail hr a ha

/-- The built list's length counts exactly the entries that convert and pass
the filter, and never exceeds the raw record count. -/
theorem buildAtomsList_length_eq (c : MPTrajDatasetConfig) :
    ∀ (es : List RawEntry) (ds : List Atoms),
      buildAtomsList c es = .ok ds →
      ds.length = es.countP (entrySurvives c) ∧ ds.length ≤ es.length := by
  intro es
  induction es with
  | nil =>
    intro ds h
    simp only [buildAtomsList, Except.ok.injEq] at h
    subst h
    simp
  | cons e rest ih =>
    intro ds h
    simp only [buildAtomsList] at h
    cases hl : _load_atoms_from_entry e with
    | error msg => rw [hl] at h; exact absurd h (by simp)
    | ok atoms =>
      rw [hl] at h
      cases hr : buildAtomsList c rest with
      | error msg => rw [hr] at h; exact absurd h (by simp)
      | ok tail =>
        rw [hr] at h
        simp only [Except.ok.injEq] at h
        subst h
        have hih := ih tail hr
        have hs : entrySurvives c e = _filter_atoms c atoms := by
          simp [entrySurvives, hl]
        by_cases hf : _filter_atoms c atoms = true
        · rw [if_pos hf]
          refine ⟨?_, ?_⟩
          · rw [List.countP_cons, hs, hf]
            simp [hih.1]
          · simp only [List.length_cons]
            omega
        · rw [if_neg hf]
          refine ⟨?_, ?_⟩
          · rw [List.countP_cons, hs, Bool.eq_false_iff.mpr hf]
            simp [hih.1]
          · simp only [List.length_cons]
            omega

/-- Any successfully built list is a sublist of the in-order list of all
converted structures: filtering removes entries but never reorders,
duplicates or adds them. -/
theorem buildAtomsList_sublist_converted (c : MPTrajDatasetConfig) :
    ∀ (es : List RawEntry) (ds : List Atoms),
      buildAtomsList c es = .ok ds →
      ds.Sublist (es.filterMap fun e => (_load_atoms_from_entry e).toOption) := by
  intro es
  induction es with
  | nil =>
    intro ds h
    simp only [buildAtomsList, Except.ok.injEq] at h
    subst h
    simp
  | cons e rest ih =>
    intro ds h
    simp only [buildAtomsList] at h
    cases hl : _load_atoms_from_entry e with
    | error msg => rw [hl] at h; exact absurd h (by simp)
    | ok atoms =>
      rw [hl] at h
      cases hr : buildAtomsList c rest with
      | error msg => rw [hr] at h; exact absurd h (by simp)
      | ok tail =>
        rw [hr] at h
        simp only [Except.ok.injEq] at h
        subst h
        have hfm : (e :: rest).filterMap
              (fun e2 => (_load_atoms_from_entry e2).toOption)
            = atoms ::
              rest.filterMap (fun e2 => (_load_atoms_from_entry e2).toOption) := by
          simp [List.filterMap_cons, hl, Except.toOption]
        rw [hfm]
        by_cases hf : _filter_atoms c atoms = true
        · rw [if_pos hf]
          exact List.Sublist.cons₂ atoms (ih tail hr)
        · rw [if_neg hf]
          exact List.Sublist.cons atoms (ih tail hr)

/-- If the build succeeds, every entry of the stream converted successfully:
contrapositively, a single failing conversion prevents any list from being
produced. -/
theorem buildAtomsList_ok_all_converted (c : MPTrajDatasetConfig) :
    ∀ (es : List RawEntry) (ds : List Atoms),
      buildAtomsList c es = .ok ds →
      ∀ e ∈ es, ∃ a, _load_atoms_from_entry e = .ok a := by
  intro es
  induction es with
  | nil =>
    intro ds h e he
    simp at he
  | cons e2 rest ih =>
    intro ds h e he
    simp only [buildAtomsList] at h
    cases hl : _load_atoms_from_entry e2 with
    | error msg => rw [hl] at h; exact absurd h (by simp)
    | ok atoms =>
      rw [hl] at h
      cases hr : buildAtomsList c rest with
      | error msg => rw [hr] at h; exact absurd h (by simp)
      | ok tail =>
        rcases List.mem_cons.mp he with rfl | hmem
        · exact ⟨atoms, hl⟩
        · exact ih tail hr e hmem

/-- Monotonicity of the filter in the element list: with the atom-count
bounds unchanged, enlarging the configured element list (as a set) can only
let more structures through. -/
theorem filter_atoms_mono_elements
    (c c2 : MPTrajDatasetConfig) (E E2 : List String) (a : Atoms)
    (hE : c.elements = some E) (hE2 : c2.elements = some E2)
    (hmn : c.min_num_atoms = c2.min_num_atoms)
    (hmx : c.max_num_atoms = c2.max_num_atoms)
    (hsub : E ⊆ E2) (h : _filter_atoms c a = true) :
    _filter_atoms c2 a = true := by
  have hh := (filter_atoms_eq_true_iff c a).mp h
  rw [filter_atoms_eq_true_iff]
  refine ⟨?_, ?_, ?_⟩
  · rw [← hmn]; exact hh.1
  · rw [← hmx]; exact hh.2.1
  · intro E3 hE3
    rw [hE2] at hE3
    simp only [Option.mem_def, Option.some.injEq] at hE3
    subst hE3
    exact (hh.2.2 E (Option.mem_def.mpr hE)).trans hsub

/-- Witness for C6: the general symmetric-tensor clause applied to the
concrete symmetric tensor with diagonal (1, 2, 3) and off-diagonals 4, 5, 6. -/
theorem voigt6_of_symmetric_witness :
    full_3x3_to_voigt_6_stress [[1, 6, 5], [6, 2, 4], [5, 4, 3]] =
      [mat3 [[(1 : ℚ), 6, 5], [6, 2, 4], [5, 4, 3]] 0 0,
       mat3 [[(1 : ℚ), 6, 5], [6, 2, 4], [5, 4, 3]] 1 1,
       mat3 [[(1 : ℚ), 6, 5], [6, 2, 4], [5, 4, 3]] 2 2,
       mat3 [[(1 : ℚ), 6, 5], [6, 2, 4], [5, 4, 3]] 1 2,
       mat3 [[(1 : ℚ), 6, 5], [6, 2, 4], [5, 4, 3]] 0 2,
       mat3 [[(1 : ℚ), 6, 5], [6, 2, 4], [5, 4, 3]] 0 1] :=
  voigt6_of_symmetric_and_concrete.1 [[1, 6, 5], [6, 2, 4], [5, 4, 3]]
    (by simp [mat3]) (by simp [mat3]) (by simp [mat3])

/-- C1: in a successfully built dataset every retained structure respects a
set `min_num_atoms = m` (atom count ≥ m) and a set `max_num_atoms = M`
(atom count ≤ M); a structure violating a set bound is dropped by the filter;
and when no predicate is set every structure passes (unset bounds impose no
restriction). -/
theorem retained_structures_respect_atom_bounds
    (c : MPTrajDatasetConfig) (es : List RawEntry) (ds : List Atoms)
    (hb : buildAtomsList c es = .ok ds) :
    (∀ a ∈ ds,
      (∀ m ∈ c.min_num_atoms, m ≤ (natoms a : ℤ)) ∧
      (∀ M ∈ c.max_num_atoms, (natoms a : ℤ) ≤ M)) ∧
    (∀ a : Atoms, ∀ m ∈ c.min_num_atoms, (natoms a : ℤ) < m →
      _filter_atoms c a = false) ∧
    (∀ a : Atoms, ∀ M ∈ c.max_num_atoms, M < (natoms a : ℤ) →
      _filter_atoms c a = false) ∧
    (c.min_num_atoms = none → c.max_num_atoms = none → c.elements = none →
      ∀ a : Atoms, _filter_atoms c a = true) := by
  refine ⟨?_, ?_, ?_, ?_⟩
  · intro a ha
    have h := (filter_atoms_eq_true_iff c a).mp
      (buildAtomsList_mem_filter c es ds hb a ha)
    exact ⟨h.1, h.2.1⟩
  · intro a m hm hlt
    rw [Bool.eq_false_iff]
    intro ht
    have := ((filter_atoms_eq_true_iff c a).mp ht).1 m hm
    omega
  · intro a M hM hlt
    rw [Bool.eq_false_iff]
    intro ht
    have := ((filter_atoms_eq_true_iff c a).mp ht).2.1 M hM
    omega
  · intro h1 h2 h3 a
    rw [filter_atoms_eq_true_iff]
    simp [h1, h2, h3]

/-- Witness for C1: building from the default config (`min_num_atoms = 5`)
and one 5-atom record retains that structure, and its atom count meets the
lower bound. -/
theorem retained_structures_respect_atom_bounds_witness :
    (5 : ℤ) ≤ (natoms (mkAtoms 5) : ℤ) :=
  ((retained_structures_respect_atom_bounds cfgDefault [mkEntry 5]
      [mkAtoms 5] (by rfl)).1 (mkAtoms 5) (by simp)).1 5 (by rfl)

/-- C2: with `elements = E` set and no atom-count bounds, a structure passes
the filter iff its set of chemical-element symbols is contained in `E`; in
particular a structure with no atoms (empty element set) passes. -/
theorem element_predicate_iff_subset
    (c : MPTrajDatasetConfig) (E : List String) (a : Atoms)
    (hE : c.elements = some E) (hmn : c.min_num_atoms = none)
    (hmx : c.max_num_atoms = none) :
    (_filter_atoms c a = true ↔ get_chemical_symbols a ⊆ E) ∧
    (a.numbers = [] → _filter_atoms c a = true) := by
  constructor
  · rw [filter_atoms_eq_true_iff]
    simp [hE, hmn, hmx]
  · intro hnum
    rw [filter_atoms_eq_true_iff]
    refine ⟨by simp [hmn], by simp [hmx], ?_⟩
    intro E2 hE2
    simp [get_chemical_symbols, hnum]

/-- Witness for C2: with `elements = ["Li", "Na"]`, a single-lithium
structure passes the filter, via the subset direction of the theorem. -/
theorem element_predicate_iff_subset_witness :
    _filter_atoms cfgLiNa atomsLi = true :=
  (element_predicate_iff_subset cfgLiNa ["Li", "Na"] atomsLi rfl rfl
    rfl).1.mpr (by decide)

/-- C7: for every config and every record stream, a successfully built
dataset is at most as long as the stream, and its length equals exactly the
number of records whose converted structure passed all active predicates. -/
theorem dataset_length_le_raw_count
    (c : MPTrajDatasetConfig) (es : List RawEntry) (ds : List Atoms)
    (hb : buildAtomsList c es = .ok ds) :
    ds.length ≤ es.length ∧ ds.length = es.countP (entrySurvives c) :=
  ⟨(buildAtomsList_length_eq c es ds hb).2,
   (buildAtomsList_length_eq c es ds hb).1⟩

/-- Witness for C7: two raw records (3 and 5 atoms) under the default config
(`min_num_atoms = 5`) build a dataset of length 1, which is the surviving
count and at most 2. -/
theorem dataset_length_le_raw_count_witness :
    ([mkAtoms 5] : List Atoms).length ≤ [mkEntry 3, mkEntry 5].length ∧
    ([mkAtoms 5] : List Atoms).length =
      [mkEntry 3, mkEntry 5].countP (entrySurvives cfgDefault) :=
  dataset_length_le_raw_count cfgDefault [mkEntry 3, mkEntry 5] [mkAtoms 5]
    (by rfl)

/-- C8: surviving records keep their relative upstream iteration order — any
successfully built list is a sublist of the in-order converted records — and
concretely, with split `"train"`, `min_num_atoms = 5` and the other
predicates unset, raw records of 3, 5 and 10 atoms build the length-2 dataset
holding the 5-atom structure before the 10-atom structure. -/
theorem survivors_keep_upstream_order :
    (∀ (c : MPTrajDatasetConfig) (es : List RawEntry) (ds : List Atoms),
      buildAtomsList c es = .ok ds →
      ds.Sublist (es.filterMap fun e => (_load_atoms_from_entry e).toOption)) ∧
    buildAtomsList cfgDefault [mkEntry 3, mkEntry 5, mkEntry 10] =
      .ok [mkAtoms 5, mkAtoms 10] :=
  ⟨buildAtomsList_sublist_converted, by rfl⟩

/-- Witness for C8: the order-preservation clause applied to the concrete
three-record build. -/
theorem survivors_keep_upstream_order_witness :
    List.Sublist [mkAtoms 5, mkAtoms 10]
      ([mkEntry 3, mkEntry 5, mkEntry 10].filterMap
        fun e => (_load_atoms_from_entry e).toOption) :=
  survivors_keep_upstream_order.1 cfgDefault [mkEntry 3, mkEntry 5, mkEntry 10]
    [mkAtoms 5, mkAtoms 10] (by rfl)

/-- C9: the build is a deterministic function of the config and the fetched
records: two successful builds from equal configs and equal record streams
agree in length and element-wise at every index. -/
theorem build_is_deterministic
    (c1 c2 : MPTrajDatasetConfig) (es1 es2 : List RawEntry)
    (ds1 ds2 : List Atoms) (hc : c1 = c2) (he : es1 = es2)
    (h1 : buildAtomsList c1 es1 = .ok ds1)
    (h2 : buildAtomsList c2 es2 = .ok ds2) :
    ds1.length = ds2.length ∧ ∀ i : ℕ, ds1[i]? = ds2[i]? := by
  subst hc
  subst he
  rw [h1] at h2
  have hds : ds1 = ds2 := by
    injection h2
  subst hds
  exact ⟨rfl, fun i => rfl⟩

/-- Witness for C9: two builds from the same one-record stream agree at
index 0. -/
theorem build_is_deterministic_witness :
    ([mkAtoms 5] : List Atoms)[0]? = ([mkAtoms 5] : List Atoms)[0]? :=
  (build_is_deterministic cfgDefault cfgDefault [mkEntry 5] [mkEntry 5]
    [mkAtoms 5] [mkAtoms 5] rfl rfl (by rfl) (by rfl)).2 0

/-- C10: the element filter is monotone in the configured element list: with
equal atom-count bounds and element lists `E ⊆ E2` (set inclusion), a
structure passing the filter configured with `E` also passes with `E2`; and
when `E` and `E2` have the same members (in particular when one is the other
with duplicates) the filter agrees on every structure. -/
theorem element_filter_monotone
    (c c2 : MPTrajDatasetConfig) (E E2 : List String) (a : Atoms)
    (hE : c.elements = some E) (hE2 : c2.elements = some E2)
    (hmn : c.min_num_atoms = c2.min_num_atoms)
    (hmx : c.max_num_atoms = c2.max_num_atoms)
    (hsub : E ⊆ E2) :
    (_filter_atoms c a = true → _filter_atoms c2 a = true) ∧
    (E2 ⊆ E → _filter_atoms c a = _filter_atoms c2 a) := by
  refine ⟨filter_atoms_mono_elements c c2 E E2 a hE hE2 hmn hmx hsub, ?_⟩
  intro hsub2
  cases hca : _filter_atoms c a with
  | true =>
    rw [filter_atoms_mono_elements c c2 E E2 a hE hE2 hmn hmx hsub hca]
  | false =>
    cases hcb : _filter_atoms c2 a with
    | false => rfl
    | true =>
      have hrev := filter_atoms_mono_elements c2 c E2 E a hE2 hE hmn.symm
        hmx.symm hsub2 hcb
      rw [hca] at hrev
      exact absurd hrev (by simp)

/-- Witness for C10: the single-lithium structure passes with
`elements = ["Li", "Na"]`, hence also with the superset
`["Li", "Na", "O"]`. -/
theorem element_filter_monotone_witness :
    _filter_atoms cfgLiNaO atomsLi = true :=
  (element_filter_monotone cfgLiNa cfgLiNaO ["Li", "Na"] ["Li", "Na", "O"]
    atomsLi rfl rfl rfl rfl (by decide)).1 (by decide)

/-- Counterexample for C3: on a built one-element dataset, `__getitem__(-1)`
does not raise: it wraps around and returns the (last) element, contradicting
the claim that negative indices raise `IndexOutOfRangeError`. -/
theorem getitem_neg_one_returns_last_cex :
    buildAtomsList cfgDefault [mkEntry 5] = .ok dsEx.atoms_list ∧
    dsEx.getitem (-1) = some (mkAtoms 5) :=
  ⟨by rfl, by rfl⟩

/-- C3 amended: for every dataset, `__getitem__(len)` raises `IndexError`
(modelled `none`) and every access with `0 ≤ index < len` succeeds without
side effects, but `__getitem__(-1)` follows Python negative-index
wraparound: it returns the last element when the dataset is nonempty and
raises only when the dataset is empty. -/
theorem getitem_range_and_neg_wraparound (ds : MPTrajDataset) :
    ds.getitem (ds.len : ℤ) = none ∧
    (∀ i : ℕ, i < ds.len → (ds.getitem (i : ℤ)).isSome = true) ∧
    (0 < ds.len → ds.getitem (-1) = ds.atoms_list[ds.len - 1]?) ∧
    (ds.len = 0 → ds.getitem (-1) = none) := by
  refine ⟨?_, ?_, ?_, ?_⟩
  · show pyListGet ds.atoms_list ((ds.atoms_list.length : ℕ) : ℤ) = none
    unfold pyListGet
    rw [if_neg (by omega), if_neg (by omega)]
  · intro i hi
    have hi2 : i < ds.atoms_list.length := hi
    show (pyListGet ds.atoms_list ((i : ℕ) : ℤ)).isSome = true
    unfold pyListGet
    rw [if_pos (by constructor <;> omega)]
    rw [Int.toNat_natCast, List.getElem?_eq_getElem hi2]
    rfl
  · intro hpos
    have hpos2 : 0 < ds.atoms_list.length := hpos
    show pyListGet ds.atoms_list (-1) =
      ds.atoms_list[ds.atoms_list.length - 1]?
    unfold pyListGet
    rw [if_neg (by omega), if_pos (by constructor <;> omega)]
    congr 1
    omega
  · intro h0
    have h02 : ds.atoms_list.length = 0 := h0
    show pyListGet ds.atoms_list (-1) = none
    unfold pyListGet
    rw [if_neg (by omega), if_neg (by omega)]

/-- Witness for C3 (amended): on the concrete one-element dataset, index -1
wraps to the last element. -/
theorem getitem_range_and_neg_wraparound_witness :
    dsEx.getitem (-1) = dsEx.atoms_list[dsEx.len - 1]? :=
  (getitem_range_and_neg_wraparound dsEx).2.2.1 (by decide)

/-- Counterexample for C4: a config with `max_num_atoms = 3` strictly below
`min_num_atoms = 5` is accepted at construction time — no
`ConfigValidationError` is raised, contradicting the claim. -/
theorem config_accepts_max_below_min_cex :
    mkMPTrajDatasetConfig "train" (some 5) (some 3) none =
      .ok { split := "train", min_num_atoms := some 5, max_num_atoms := some 3,
            elements := none } := by
  rfl

/-- C4 amended: constructing a config with `max_num_atoms` strictly below
`min_num_atoms` does not fail — no cross-field validation exists — and the
inconsistent bounds instead make the filter reject every structure, so the
resulting dataset is always empty. -/
theorem invalid_bounds_accepted_filter_rejects_all (mn mx : ℤ) (h : mx < mn) :
    mkMPTrajDatasetConfig "train" (some mn) (some mx) none =
      .ok { split := "train", min_num_atoms := some mn,
            max_num_atoms := some mx, elements := none } ∧
    ∀ a : Atoms,
      _filter_atoms { split := "train", min_num_atoms := some mn,
                      max_num_atoms := some mx, elements := none } a
        = false := by
  constructor
  · rfl
  · intro a
    rw [Bool.eq_false_iff]
    intro ht
    have hh := (filter_atoms_eq_true_iff _ a).mp ht
    have h1 := hh.1 mn (Option.mem_def.mpr rfl)
    have h2 := hh.2.1 mx (Option.mem_def.mpr rfl)
    omega

/-- Witness for C4 (amended): with `min_num_atoms = 5` and
`max_num_atoms = 3` the filter rejects a 4-atom structure. -/
theorem invalid_bounds_accepted_filter_rejects_all_witness :
    _filter_atoms { split := "train", min_num_atoms := some 5,
                    max_num_atoms := some 3, elements := none } (mkAtoms 4)
      = false :=
  (invalid_bounds_accepted_filter_rejects_all 5 3 (by decide)).2 (mkAtoms 4)

/-- Counterexample for C5: a record with 2 atoms but a 3x3 `forces` array
converts successfully with the mismatched forces attached, and the build
completes with the record retained — no `RecordConversionError` aborts it,
contradicting the claim. -/
theorem forces_shape_mismatch_not_fatal_cex :
    _load_atoms_from_entry badEntry = .ok badAtoms ∧
    natoms badAtoms = 2 ∧
    (badAtoms.calcResults.map fun r => r.forces.length) = some 3 ∧
    buildAtomsList cfgNoFilter [badEntry] = .ok [badAtoms] :=
  ⟨by rfl, by rfl, by rfl, by rfl⟩

/-- C5 amended: conversion performs no forces-shape validation — any record
whose `positions` and `numbers` arrays agree in length converts successfully
with its forces attached unchanged, even when their shape mismatches the atom
count; what does hold is that a successful build implies every record of the
stream converted successfully, i.e. a genuinely failing conversion (ASE's
array-length error) yields no partial dataset. -/
theorem conversion_attaches_forces_unchecked (entry : RawEntry)
    (h : entry.positions.length = entry.numbers.length) :
    (_load_atoms_from_entry entry = .ok
      { positions := entry.positions, numbers := entry.numbers,
        cell := entry.cell, pbc := true,
        calcResults := some
          { energy := entry.corrected_total_energy, forces := entry.forces,
            stress := full_3x3_to_voigt_6_stress entry.stress } }) ∧
    (∀ (c : MPTrajDatasetConfig) (es : List RawEntry) (ds : List Atoms),
      buildAtomsList c es = .ok ds →
      ∀ e ∈ es, ∃ a, _load_atoms_from_entry e = .ok a) := by
  constructor
  · unfold _load_atoms_from_entry
    rw [if_neg (by simp [h])]
  · exact buildAtomsList_ok_all_converted

/-- Witness for C5 (amended): the mismatched-forces record converts
successfully and keeps its 3-row forces. -/
theorem conversion_attaches_forces_unchecked_witness :
    _load_atoms_from_entry badEntry = .ok
      { positions := badEntry.positions, numbers := badEntry.numbers,
        cell := badEntry.cell, pbc := true,
        calcResults := some
          { energy := badEntry.corrected_total_energy,
            forces := badEntry.forces,
            stress := full_3x3_to_voigt_6_stress badEntry.stress } } :=
  (conversion_attaches_forces_unchecked badEntry (by decide)).1

end MatterTune
